import Mathlib

/-!
Shallow embedding of `src/pykCSD/KCSD3D.py` (class `KCSD3D`).

Python `float` values are modelled as `ℚ`; numpy arrays as Lean lists or
`Matrix` over `Fin`-indexed types; a Python exception as the `PyErr` error of
an `Except PyErr` computation.  Each definition mirrors the source function of
the same name; line numbers in the doc comments refer to
`src/pykCSD/KCSD3D.py`.
-/

namespace KCSD3D

/-- The exceptions the embedded code can raise.  `exn msg` models a plain
Python `raise Exception(msg)` (the only kind the source raises itself);
`typeError`, `valueError` and `indexError` model the built-in exceptions that
numpy / the interpreter raise; `invalidFoldCount` models the fold-count
failure of the external `cross_validation` module (spec §7's
InvalidFoldCountError). -/
inductive PyErr where
  | exn (msg : String)
  | typeError
  | valueError
  | indexError
  | invalidFoldCount
deriving DecidableEq

/-- A 3D electrode position (one row of the `elec_pos` array). -/
abbrev Point3 : Type := ℚ × ℚ × ℚ

/-- `np.max` of a 1D array: raises `ValueError` on an empty array. -/
def np_max (xs : List ℚ) : Except PyErr ℚ :=
  match xs with
  | [] => .error .valueError
  | x :: t => .ok (t.foldl max x)

/-- `np.min` of a 1D array: raises `ValueError` on an empty array. -/
def np_min (xs : List ℚ) : Except PyErr ℚ :=
  match xs with
  | [] => .error .valueError
  | x :: t => .ok (t.foldl min x)

/-- `KCSD3D.step_rescale` (lines 222-228): returns
`int(xp**2 + yp**2 + zp**2 <= R**2)`. -/
def step_rescale (xp yp zp R : ℚ) : ℤ :=
  if xp ^ 2 + yp ^ 2 + zp ^ 2 ≤ R ^ 2 then 1 else 0

/-- Line 146 of `calculate_matrices`:
`self.k_pot = dot(transpose(self.b_pot_matrix), self.b_pot_matrix)`.
`b_pot_matrix` is `n_src × N_electrodes` (spec §3), so `k_pot` is
`N_electrodes × N_electrodes`. -/
def k_pot {S N : ℕ} (b_pot_matrix : Matrix (Fin S) (Fin N) ℚ) :
    Matrix (Fin N) (Fin N) ℚ :=
  b_pot_matrix.transpose * b_pot_matrix

/-- `np.linalg.inv`, written computably over `ℚ`: the inverse as
`det⁻¹ • adjugate` (equal to Mathlib's `Matrix.inv`, see `np_inv_eq_inv`). -/
def np_inv {n : Type} [Fintype n] [DecidableEq n] (A : Matrix n n ℚ) :
    Matrix n n ℚ :=
  A.det⁻¹ • A.adjugate

/-- Lines 93-94 of `estimate_pots`:
`k_inv = np.linalg.inv(self.k_pot + self.lambd * identity(self.k_pot.shape[0]))`;
`beta = dot(k_inv, self.sampled_pots)`. -/
def estimate_pots_beta {N : ℕ} (k_pot : Matrix (Fin N) (Fin N) ℚ) (lambd : ℚ)
    (sampled_pots : Fin N → ℚ) : Fin N → ℚ :=
  Matrix.mulVec (np_inv (k_pot + lambd • (1 : Matrix (Fin N) (Fin N) ℚ)))
    sampled_pots

/-- Lines 109-110 of `estimate_csd`: the same two statements as in
`estimate_pots`. -/
def estimate_csd_beta {N : ℕ} (k_pot : Matrix (Fin N) (Fin N) ℚ) (lambd : ℚ)
    (sampled_pots : Fin N → ℚ) : Fin N → ℚ :=
  Matrix.mulVec (np_inv (k_pot + lambd • (1 : Matrix (Fin N) (Fin N) ℚ)))
    sampled_pots

/-- A numpy ndarray of rationals: its shape tuple and its flat data. -/
structure NDArray where
  shape : List ℕ
  data : List ℚ
deriving DecidableEq

/-- `np.zeros(n)` for a 1D buffer. -/
def np_zeros (n : ℕ) : List ℚ := List.replicate n 0

/-- The in-place broadcast add `out[:] += b` of two 1D arrays: defined when
the lengths match or `b` has a single element; otherwise numpy raises a
`ValueError` (shapes cannot be broadcast to the output's shape). -/
def broadcast_add (a b : List ℚ) : Except PyErr (List ℚ) :=
  if b.length = a.length then .ok (List.zipWith (· + ·) a b)
  else if b.length = 1 then .ok (a.map (· + b.headI))
  else .error .valueError

/-- `data.reshape(shape)`: succeeds exactly when the element counts agree,
otherwise numpy raises a `ValueError`. -/
def np_reshape (data : List ℚ) (shape : List ℕ) : Except PyErr NDArray :=
  if shape.prod = data.length then .ok ⟨shape, data⟩ else .error .valueError

/-- The accumulation loop of `estimate_pots` / `estimate_csd` (lines 99-100
and 115-116): `for i in xrange(N): output[:] += beta[i]*estimation_table[:,i]`.
`tbl` is the estimation table, with one row per interpolation point. -/
def estimate_loop {N m : ℕ} (beta : Fin N → ℚ) (tbl : Matrix (Fin m) (Fin N) ℚ) :
    List (Fin N) → List ℚ → Except PyErr (List ℚ)
  | [], out => .ok out
  | i :: is, out => do
      let out' ← broadcast_add out ((List.finRange m).map (fun r => beta i * tbl r i))
      estimate_loop beta tbl is out'

/-- `KCSD3D.estimate_pots` (lines 89-103).  `nx, ny, nz` is the shape of
`self.space_X`; `interp_pot` is `self.interp_pot`.  The buffer is
`np.zeros(nx*ny)` and the result is reshaped to `(nx, ny)`, exactly as the
source does. -/
def estimate_pots {N m : ℕ} (k_pot : Matrix (Fin N) (Fin N) ℚ) (lambd : ℚ)
    (sampled_pots : Fin N → ℚ) (interp_pot : Matrix (Fin m) (Fin N) ℚ)
    (nx ny nz : ℕ) : Except PyErr NDArray := do
  let beta := estimate_pots_beta k_pot lambd sampled_pots
  let out ← estimate_loop beta interp_pot (List.finRange N) (np_zeros (nx * ny))
  np_reshape out [nx, ny]

/-- `KCSD3D.estimate_csd` (lines 105-119).  The buffer is `np.zeros(nx*ny)`
and the result is reshaped to `(nx, ny, nz)`, exactly as the source does. -/
def estimate_csd {N m : ℕ} (k_pot : Matrix (Fin N) (Fin N) ℚ) (lambd : ℚ)
    (sampled_pots : Fin N → ℚ) (k_interp_cross : Matrix (Fin m) (Fin N) ℚ)
    (nx ny nz : ℕ) : Except PyErr NDArray := do
  let beta := estimate_csd_beta k_pot lambd sampled_pots
  let out ← estimate_loop beta k_interp_cross (List.finRange N) (np_zeros (nx * ny))
  np_reshape out [nx, ny, nz]

/-- Python's `int()` applied to a rational: truncation toward zero. -/
def py_int (q : ℚ) : ℤ := if 0 ≤ q then ⌊q⌋ else ⌈q⌉

/-- `np.linspace(a, b, num)` with the default `endpoint=True` (the numpy of
this code base casts a float `num` to `int` first; `py_int` is applied by the
callers): `num` evenly spaced points from `a` to `b` inclusive. -/
def np_linspace (a b : ℚ) (num : ℕ) : List ℚ :=
  if num = 0 then []
  else if num = 1 then [a]
  else (List.range num).map (fun i => a + (b - a) * i / (num - 1))

/-- The resolved volume bounds and per-axis grid spacing held by the
estimator when lines 76-78 run. -/
structure Bounds where
  xmin : ℚ
  xmax : ℚ
  ymin : ℚ
  ymax : ℚ
  zmin : ℚ
  zmax : ℚ
  gdX : ℚ
  gdY : ℚ
  gdZ : ℚ
deriving DecidableEq

/-- Line 76:
`lin_x = np.linspace(self.xmin, self.xmax, (self.xmax - self.xmin)/self.gdX +1)`. -/
def lin_x (c : Bounds) : List ℚ :=
  np_linspace c.xmin c.xmax (py_int ((c.xmax - c.xmin) / c.gdX + 1)).toNat

/-- Line 77:
`lin_y = np.linspace(self.ymin, self.ymax, (self.ymax - self.ymin)/self.gdY +1)`. -/
def lin_y (c : Bounds) : List ℚ :=
  np_linspace c.ymin c.ymax (py_int ((c.ymax - c.ymin) / c.gdY + 1)).toNat

/-- Line 78:
`lin_z = np.linspace(self.zmin, self.ymax, (self.zmax - self.zmin)/self.gdZ +1)`
— the second argument of this `linspace` call is `self.ymax` in the source. -/
def lin_z (c : Bounds) : List ℚ :=
  np_linspace c.zmin c.ymax (py_int ((c.zmax - c.zmin) / c.gdZ + 1)).toNat

/-- The optional-parameter dictionary `params` of `KCSD3D.__init__`: one
optional field per key the source reads.  `none` models an absent key. -/
structure Params where
  sigma : Option ℚ := none
  n_sources : Option ℕ := none
  x_max : Option ℚ := none
  x_min : Option ℚ := none
  y_max : Option ℚ := none
  y_min : Option ℚ := none
  z_max : Option ℚ := none
  z_min : Option ℚ := none
  lambda : Option ℚ := none
  R_init : Option ℚ := none
  h : Option ℚ := none
  ext_X : Option ℚ := none
  ext_Y : Option ℚ := none
  ext_Z : Option ℚ := none
  gdX : Option ℚ := none
  gdY : Option ℚ := none
  gdZ : Option ℚ := none
  source_type : Option String := none

/-- `KCSD3D.calc_min_dist` (lines 155-157): a stub whose body is `pass`, so
every call returns Python `None` (modelled as `Option.none`). -/
def calc_min_dist (_elec_pos : List Point3) : Option ℚ := none

/-- `2 * v` applied to a possibly-`None` value: `2 * None` raises
`TypeError` in Python. -/
def py_two_mul (v : Option ℚ) : Except PyErr ℚ :=
  match v with
  | none => .error .typeError
  | some q => .ok (2 * q)

/-- The seven-element tuple returned by `KCSD3D.make_src_3D`. -/
structure SrcData where
  X_src : List ℚ
  Y_src : List ℚ
  Z_src : List ℚ
  nx : ℕ
  ny : ℕ
  nz : ℕ
  R : ℚ

/-- `KCSD3D.make_src_3D` (lines 175-189): a stub whose body is `pass`, so
every call returns Python `None`. -/
def make_src_3D (_spaceX _spaceY _spaceZ : List ℚ) (_n_src : ℕ)
    (_ext_x _ext_y _ext_z _R_init : ℚ) : Option SrcData := none

/-- Unpacking a sequence: `[a, b, ...] = v` raises `TypeError` when `v` is
`None` (not iterable). -/
def py_unpack {α : Type} (v : Option α) : Except PyErr α :=
  match v with
  | none => .error .typeError
  | some a => .ok a

/-- The attributes `set_parameters` assigns (`self.sigma` … `self.dist_max`).
`dist_max_sq` holds the square of `self.dist_max` (line 87 takes
`np.sqrt` of it, which has no exact rational counterpart; the code below it
is unreachable, see `set_parameters`). -/
structure KCSD3DState where
  elec_pos : List Point3
  sampled_pots : List ℚ
  sigma : ℚ
  n_sources : ℕ
  bounds : Bounds
  lambd : ℚ
  R_init : ℚ
  h : ℚ
  ext_X : ℚ
  ext_Y : ℚ
  ext_Z : ℚ
  source_type : String
  lambdas : List ℚ
  space_x : List ℚ
  space_y : List ℚ
  space_z : List ℚ
  srcs : SrcData
  dist_max_sq : ℚ

/-- `KCSD3D.set_parameters` (lines 44-87).  Each `.get(key, default)` call
evaluates its default expression before the lookup, exactly as Python does —
in particular line 55 evaluates `2*KCSD3D.calc_min_dist(self.elec_pos)`
whether or not `'R_init'` is a key of `params`. -/
def set_parameters (elec_pos : List Point3) (sampled_pots : List ℚ)
    (params : Params) : Except PyErr KCSD3DState := do
  let sigma := params.sigma.getD 1
  let n_sources := params.n_sources.getD 300
  let xmaxD ← np_max (elec_pos.map (fun p => p.1))
  let xmax := params.x_max.getD xmaxD
  let xminD ← np_min (elec_pos.map (fun p => p.1))
  let xmin := params.x_min.getD xminD
  let ymaxD ← np_max (elec_pos.map (fun p => p.2.1))
  let ymax := params.y_max.getD ymaxD
  let yminD ← np_min (elec_pos.map (fun p => p.2.1))
  let ymin := params.y_min.getD yminD
  let zmaxD ← np_max (elec_pos.map (fun p => p.2.2))
  let zmax := params.z_max.getD zmaxD
  let zminD ← np_min (elec_pos.map (fun p => p.2.2))
  let zmin := params.z_min.getD zminD
  let lambd := params.lambda.getD 0
  let rDefault ← py_two_mul (calc_min_dist elec_pos)
  let R_init := params.R_init.getD rDefault
  let h := params.h.getD 1
  let ext_X := params.ext_X.getD 0
  let ext_Y := params.ext_Y.getD 0
  let ext_Z := params.ext_Z.getD 0
  let gdX := params.gdX.getD ((1 / 100) * (xmax - xmin))
  let gdY := params.gdY.getD ((1 / 100) * (ymax - ymin))
  let gdZ := params.gdZ.getD ((1 / 100) * (zmax - zmin))
  let source_type ← match params.source_type with
    | some s =>
        if s = "gaussian" ∨ s = "step" then Except.ok s
        else Except.error (.exn "Incorrect source type!")
    | none => Except.ok "gaussian"
  let lambdas := (List.range 20).map (fun n => 1 / 2 ^ n : ℕ → ℚ)
  let bounds : Bounds := ⟨xmin, xmax, ymin, ymax, zmin, zmax, gdX, gdY, gdZ⟩
  let lx := lin_x bounds
  let ly := lin_y bounds
  let lz := lin_z bounds
  let srcs ← py_unpack (make_src_3D lx ly lz n_sources ext_X ext_Y ext_Z R_init)
  let sxmax ← np_max srcs.X_src
  let sxmin ← np_min srcs.X_src
  let symax ← np_max srcs.Y_src
  let symin ← np_min srcs.Y_src
  let szmax ← np_max srcs.Z_src
  let szmin ← np_min srcs.Z_src
  let Lx := sxmax - sxmin + srcs.R
  let Ly := symax - symin + srcs.R
  let Lz := szmax - szmin + srcs.R
  pure ⟨elec_pos, sampled_pots, sigma, n_sources, bounds, lambd, R_init, h,
    ext_X, ext_Y, ext_Z, source_type, lambdas, lx, ly, lz, srcs,
    Lx ^ 2 + Ly ^ 2 + Lz ^ 2⟩

/-- `KCSD3D.validate_parameters` (lines 38-42). -/
def validate_parameters (elec_pos : List Point3) (sampled_pots : List ℚ) :
    Except PyErr Unit :=
  if elec_pos.length ≠ sampled_pots.length then
    .error (.exn "Number of measured potentials is not equal to electrode number!")
  else if elec_pos.length < 4 then
    .error (.exn "Number of electrodes must be at least 4!")
  else .ok ()

/-- `KCSD3D.__init__` (lines 18-36): validates, stores the inputs, then runs
`set_parameters`. -/
def init (elec_pos : List Point3) (sampled_pots : List ℚ) (params : Params) :
    Except PyErr KCSD3DState := do
  validate_parameters elec_pos sampled_pots
  set_parameters elec_pos sampled_pots params

/-- The numeric value a successful `cv.cross_validation` call returns.  The
spec does not determine it (it depends on the fold partition, which is
shuffled per iteration), so it is an oracle: a function of the measured
potentials, the kernel matrix, the candidate λ, the fold count and the
iteration index. -/
def CvOracle : Type := List ℚ → List (List ℚ) → ℚ → ℕ → ℕ → ℚ

/-- Modelled from the spec: the `cross_validation` module (imported as `cv`
on line 9) is not part of the repository's files.  Spec §4.8: the call
"Fails with InvalidFoldCountError if n_folds > N_electrodes or n_folds < 1"
and otherwise returns the accumulated held-out prediction error, whose
numeric value the oracle `cvf` supplies. -/
def cross_validation (cvf : CvOracle) (lambd : ℚ) (sampled_pots : List ℚ)
    (kpot : List (List ℚ)) (n_elec n_folds : ℕ) (iter : ℕ) :
    Except PyErr ℚ :=
  if n_folds < 1 ∨ n_elec < n_folds then .error .invalidFoldCount
  else .ok (cvf sampled_pots kpot lambd n_folds iter)

/-- The inner loop of `choose_lambda` (lines 313-314):
`for j in xrange(n_iter): errors_iter[j] = cv.cross_validation(...)`,
collecting the filled `errors_iter` entries. -/
def cv_iter_loop (cvf : CvOracle) (lambd : ℚ) (sampled_pots : List ℚ)
    (kpot : List (List ℚ)) (n_elec n_folds : ℕ) :
    List ℕ → Except PyErr (List ℚ)
  | [] => .ok []
  | j :: js => do
      let e ← cross_validation cvf lambd sampled_pots kpot n_elec n_folds j
      let rest ← cv_iter_loop cvf lambd sampled_pots kpot n_elec n_folds js
      pure (e :: rest)

/-- `np.mean` of a 1D array.  (`np.mean` of an empty array is NaN, which ℚ
cannot represent — this is `0` here; the theorems about `choose_lambda`
assume `n_iter ≥ 1`, which keeps every averaged list nonempty.) -/
def np_mean (xs : List ℚ) : ℚ := xs.sum / xs.length

/-- The outer loop of `choose_lambda` (lines 312-316): one mean
cross-validation error per candidate λ, in candidate order. -/
def cv_errors (cvf : CvOracle) (sampled_pots : List ℚ) (kpot : List (List ℚ))
    (n_elec n_folds n_iter : ℕ) : List ℚ → Except PyErr (List ℚ)
  | [] => .ok []
  | l :: ls => do
      let es ← cv_iter_loop cvf l sampled_pots kpot n_elec n_folds
        (List.range n_iter)
      let rest ← cv_errors cvf sampled_pots kpot n_elec n_folds n_iter ls
      pure (np_mean es :: rest)

/-- Python's built-in `min` over a sequence: `None` when the sequence is
empty (where Python raises `ValueError`, see `choose_lambda`). -/
def list_min : List ℚ → Option ℚ
  | [] => none
  | x :: xs =>
      some (match list_min xs with
            | none => x
            | some m => min x m)

/-- Line 317: `return lambdas[errors == min(errors)][0]` — `min` of an empty
array raises `ValueError`; the boolean mask keeps the candidates whose error
equals the minimum; `[0]` takes the first of them (raising `IndexError` if
none matches). -/
def select_first_min (lambdas errors : List ℚ) : Except PyErr ℚ :=
  match list_min errors with
  | none => .error .valueError
  | some m =>
      match (lambdas.zip errors).find? (fun p => decide (p.2 = m)) with
      | some p => .ok p.1
      | none => .error .indexError

/-- `KCSD3D.choose_lambda` (lines 305-317), with the data it reads from
`self` (`sampled_pots`, `k_pot`, `elec_pos.shape[0]`) passed explicitly. -/
def choose_lambda (cvf : CvOracle) (sampled_pots : List ℚ)
    (kpot : List (List ℚ)) (n_elec : ℕ) (lambdas : List ℚ)
    (n_folds n_iter : ℕ) : Except PyErr ℚ := do
  let errors ← cv_errors cvf sampled_pots kpot n_elec n_folds n_iter lambdas
  select_first_min lambdas errors

/-- The attributes of `self` that `choose_lambda` reads. -/
structure KState where
  elec_pos : List Point3
  sampled_pots : List ℚ
  k_pot : List (List ℚ)
  lambd : ℚ

/-- The method call `self.choose_lambda(lambdas, n_folds, n_iter)`: its
return value together with the state of `self` after the call (the body
binds only locals — `n`, `errors`, `errors_iter`, `i`, `j`, `lambd` — and
assigns no attribute). -/
def choose_lambda_method (cvf : CvOracle) (st : KState) (lambdas : List ℚ)
    (n_folds n_iter : ℕ) : Except PyErr ℚ × KState :=
  (choose_lambda cvf st.sampled_pots st.k_pot st.elec_pos.length lambdas
    n_folds n_iter, st)

/-- The mean cross-validation error `choose_lambda` associates with a
candidate λ when every `cv.cross_validation` call succeeds: the `np.mean`
over the `n_iter` oracle values (`errors[i]` on line 316). -/
def mean_err (cvf : CvOracle) (sampled_pots : List ℚ) (kpot : List (List ℚ))
    (n_folds n_iter : ℕ) (lambd : ℚ) : ℚ :=
  np_mean ((List.range n_iter).map
    (fun j => cvf sampled_pots kpot lambd n_folds j))

lemma np_inv_eq_inv {n : Type} [Fintype n] [DecidableEq n]
    (A : Matrix n n ℚ) : np_inv A = A⁻¹ := by
  rw [Matrix.inv_def, Ring.inverse_eq_inv]
  rfl

/-- C5: For every `b_pot_matrix`, the kernel matrix computed by
`calculate_matrices` as `K_pot = B_potᵀ · B_pot` is symmetric:
`K_pot[i,j] = K_pot[j,i]` for all index pairs. -/
theorem k_pot_symmetric {S N : ℕ} (b_pot_matrix : Matrix (Fin S) (Fin N) ℚ)
    (i j : Fin N) : k_pot b_pot_matrix i j = k_pot b_pot_matrix j i := by
  unfold k_pot
  simp only [Matrix.mul_apply, Matrix.transpose_apply]
  exact Finset.sum_congr rfl fun s _ => mul_comm _ _

/-- C1: both `estimate_pots()` and `estimate_csd()` compute the weight
vector as `Beta = (K_pot + λ·I)⁻¹ · SampledPotentials`, with `I` the
identity matrix of `K_pot`'s dimension. -/
theorem estimate_beta_eq_regularized_inverse {N : ℕ}
    (kp : Matrix (Fin N) (Fin N) ℚ) (lambd : ℚ) (sampled_pots : Fin N → ℚ) :
    estimate_pots_beta kp lambd sampled_pots
        = Matrix.mulVec (kp + lambd • (1 : Matrix (Fin N) (Fin N) ℚ))⁻¹
            sampled_pots ∧
    estimate_csd_beta kp lambd sampled_pots
        = Matrix.mulVec (kp + lambd • (1 : Matrix (Fin N) (Fin N) ℚ))⁻¹
            sampled_pots := by
  constructor <;>
    simp [estimate_pots_beta, estimate_csd_beta, np_inv_eq_inv]

/-- C8: for `R ≥ 0`, `step_rescale` returns `1` exactly on the closed ball
of radius `R` about the origin (`‖(xp,yp,zp)‖ ≤ R`, i.e.
`xp²+yp²+zp² ≤ R²`) and `0` exactly outside it. -/
theorem step_rescale_ball_indicator (xp yp zp R : ℚ) (hR : 0 ≤ R) :
    (step_rescale xp yp zp R = 1 ↔
      Real.sqrt ((xp : ℝ) ^ 2 + (yp : ℝ) ^ 2 + (zp : ℝ) ^ 2) ≤ (R : ℝ)) ∧
    (step_rescale xp yp zp R = 0 ↔
      ¬ Real.sqrt ((xp : ℝ) ^ 2 + (yp : ℝ) ^ 2 + (zp : ℝ) ^ 2) ≤ (R : ℝ)) := by
  have hq : Real.sqrt ((xp : ℝ) ^ 2 + (yp : ℝ) ^ 2 + (zp : ℝ) ^ 2) ≤ (R : ℝ) ↔
      xp ^ 2 + yp ^ 2 + zp ^ 2 ≤ R ^ 2 := by
    rw [Real.sqrt_le_left (by exact_mod_cast hR)]
    exact_mod_cast Iff.rfl
  unfold step_rescale
  by_cases h : xp ^ 2 + yp ^ 2 + zp ^ 2 ≤ R ^ 2 <;> simp [h, hq]

/-- Witness for `step_rescale_ball_indicator` at `(0,0,0)`, `R = 1`. -/
theorem step_rescale_ball_indicator_witness :
    0 ≤ (1 : ℚ) ∧
    ((step_rescale 0 0 0 1 = 1 ↔
      Real.sqrt (((0 : ℚ) : ℝ) ^ 2 + ((0 : ℚ) : ℝ) ^ 2 + ((0 : ℚ) : ℝ) ^ 2)
        ≤ ((1 : ℚ) : ℝ)) ∧
    (step_rescale 0 0 0 1 = 0 ↔
      ¬ Real.sqrt (((0 : ℚ) : ℝ) ^ 2 + ((0 : ℚ) : ℝ) ^ 2 + ((0 : ℚ) : ℝ) ^ 2)
        ≤ ((1 : ℚ) : ℝ))) :=
  ⟨by norm_num, step_rescale_ball_indicator 0 0 0 1 (by norm_num)⟩

/-- C9: a `choose_lambda` call leaves the estimator state unchanged —
afterwards `k_pot`, `sampled_pots`, `elec_pos` and `lambd` hold the same
values as before (the body binds only locals and assigns no attribute). -/
theorem choose_lambda_frame (cvf : CvOracle) (st : KState) (lambdas : List ℚ)
    (n_folds n_iter : ℕ) :
    (choose_lambda_method cvf st lambdas n_folds n_iter).2.k_pot = st.k_pot ∧
    (choose_lambda_method cvf st lambdas n_folds n_iter).2.sampled_pots
        = st.sampled_pots ∧
    (choose_lambda_method cvf st lambdas n_folds n_iter).2.elec_pos
        = st.elec_pos ∧
    (choose_lambda_method cvf st lambdas n_folds n_iter).2.lambd = st.lambd :=
  ⟨rfl, rfl, rfl, rfl⟩

lemma init_typeError_of_valid (elec_pos : List Point3) (sampled_pots : List ℚ)
    (params : Params) (h1 : elec_pos.length = sampled_pots.length)
    (h2 : 4 ≤ elec_pos.length) :
    init elec_pos sampled_pots params = .error .typeError := by
  cases elec_pos with
  | nil => simp at h2
  | cons p rest =>
      unfold init validate_parameters
      rw [if_neg (not_ne_iff.mpr h1), if_neg (Nat.not_lt.mpr h2)]
      rfl

/-- C10: every construction input that passes validation — including one
that supplies an explicit `R_init` in `params` — makes `KCSD3D.__init__`
raise `TypeError`: line 55 evaluates the default
`2*KCSD3D.calc_min_dist(self.elec_pos)` eagerly, `calc_min_dist` is a stub
returning `None`, and `2*None` fails.  Construction never completes. -/
theorem init_always_typeError (elec_pos : List Point3) (sampled_pots : List ℚ)
    (params : Params) (h1 : elec_pos.length = sampled_pots.length)
    (h2 : 4 ≤ elec_pos.length) :
    init elec_pos sampled_pots params = .error .typeError :=
  init_typeError_of_valid elec_pos sampled_pots params h1 h2

/-- Witness for `init_always_typeError`: four electrodes, matching
potentials, and a `params` that explicitly supplies `R_init`. -/
theorem init_always_typeError_witness :
    ([(0, 0, 0), (1, 0, 0), (0, 1, 0), (0, 0, 1)] : List Point3).length
        = ([5, 6, 7, 8] : List ℚ).length ∧
    4 ≤ ([(0, 0, 0), (1, 0, 0), (0, 1, 0), (0, 0, 1)] : List Point3).length ∧
    init [(0, 0, 0), (1, 0, 0), (0, 1, 0), (0, 0, 1)] [5, 6, 7, 8]
        { R_init := some 5 } = .error .typeError :=
  ⟨rfl, by decide,
    init_always_typeError [(0, 0, 0), (1, 0, 0), (0, 1, 0), (0, 0, 1)]
      [5, 6, 7, 8] { R_init := some 5 } rfl (by decide)⟩

/-- C6: construction fails with the validation exception (spec §7's
ValidationError; the source raises `Exception` with one of the two
validation messages) exactly when the electrode count differs from the
potential count or is below 4 — both checks run, in `__init__`'s first
statement, before any derived state is computed (on valid inputs the
failure is line 55's `TypeError` instead, never a validation exception). -/
theorem init_validation_error_iff (elec_pos : List Point3)
    (sampled_pots : List ℚ) (params : Params) :
    (elec_pos.length ≠ sampled_pots.length ∨ elec_pos.length < 4) ↔
    (∃ msg,
      (msg = "Number of measured potentials is not equal to electrode number!"
        ∨ msg = "Number of electrodes must be at least 4!") ∧
      init elec_pos sampled_pots params = .error (.exn msg)) := by
  constructor
  · rintro (h | h)
    · refine ⟨_, Or.inl rfl, ?_⟩
      unfold init validate_parameters
      rw [if_pos h]
      rfl
    · by_cases he : elec_pos.length = sampled_pots.length
      · refine ⟨_, Or.inr rfl, ?_⟩
        unfold init validate_parameters
        rw [if_neg (not_ne_iff.mpr he), if_pos h]
        rfl
      · refine ⟨_, Or.inl rfl, ?_⟩
        unfold init validate_parameters
        rw [if_pos he]
        rfl
  · rintro ⟨msg, _, hmsg⟩
    by_contra hcon
    push_neg at hcon
    rw [init_typeError_of_valid elec_pos sampled_pots params
      hcon.1 hcon.2] at hmsg
    exact PyErr.noConfusion (Except.error.inj hmsg)

lemma cv_iter_loop_ok (cvf : CvOracle) (lambd : ℚ) (sampled_pots : List ℚ)
    (kpot : List (List ℚ)) (n_elec n_folds : ℕ)
    (hv : ¬(n_folds < 1 ∨ n_elec < n_folds)) (js : List ℕ) :
    cv_iter_loop cvf lambd sampled_pots kpot n_elec n_folds js
      = .ok (js.map (fun j => cvf sampled_pots kpot lambd n_folds j)) := by
  induction js with
  | nil => rfl
  | cons j js ih =>
      simp only [cv_iter_loop, cross_validation]
      rw [if_neg hv, ih]
      rfl

lemma cv_errors_ok (cvf : CvOracle) (sampled_pots : List ℚ)
    (kpot : List (List ℚ)) (n_elec n_folds n_iter : ℕ)
    (hv : ¬(n_folds < 1 ∨ n_elec < n_folds)) (ls : List ℚ) :
    cv_errors cvf sampled_pots kpot n_elec n_folds n_iter ls
      = .ok (ls.map (mean_err cvf sampled_pots kpot n_folds n_iter)) := by
  induction ls with
  | nil => rfl
  | cons l ls ih =>
      simp only [cv_errors]
      rw [cv_iter_loop_ok cvf l sampled_pots kpot n_elec n_folds hv, ih]
      rfl

lemma list_min_eq_none_iff (xs : List ℚ) : list_min xs = none ↔ xs = [] := by
  cases xs <;> simp [list_min]

lemma list_min_spec (xs : List ℚ) (m : ℚ) (hm : list_min xs = some m) :
    m ∈ xs ∧ ∀ y ∈ xs, m ≤ y := by
  induction xs generalizing m with
  | nil => simp [list_min] at hm
  | cons x t ih =>
      rw [list_min] at hm
      cases ht : list_min t with
      | none =>
          have : t = [] := (list_min_eq_none_iff t).mp ht
          subst this
          rw [ht] at hm
          simp at hm
          subst hm
          simp
      | some mt =>
          rw [ht] at hm
          simp at hm
          obtain ⟨hmem, hle⟩ := ih mt ht
          subst hm
          constructor
          · rcases min_cases x mt with ⟨h, _⟩ | ⟨h, _⟩
            · rw [h]; exact List.mem_cons_self x t
            · rw [h]; exact List.mem_cons_of_mem x hmem
          · intro y hy
            rcases List.mem_cons.mp hy with h | hyt
            · rw [h]; exact min_le_left x mt
            · exact le_trans (min_le_right x mt) (hle y hyt)

lemma find_zip_first (ls : List ℚ) (f : ℚ → ℚ) (m : ℚ)
    (hex : ∃ x ∈ ls, f x = m) :
    ∃ i : Fin ls.length,
      (ls.zip (ls.map f)).find? (fun p => decide (p.2 = m))
          = some (ls.get i, m) ∧
      f (ls.get i) = m ∧
      ∀ j : Fin ls.length, (j : ℕ) < (i : ℕ) → f (ls.get j) ≠ m := by
  induction ls with
  | nil => simp at hex
  | cons a t ih =>
      by_cases hfa : f a = m
      · refine ⟨⟨0, by simp⟩, ?_, hfa, ?_⟩
        · simp [List.find?, hfa]
        · intro j hj
          simp at hj
      · have hext : ∃ x ∈ t, f x = m := by
          obtain ⟨x, hx, hfx⟩ := hex
          rcases List.mem_cons.mp hx with rfl | hxt
          · exact absurd hfx hfa
          · exact ⟨x, hxt, hfx⟩
        obtain ⟨i, h1, h2, h3⟩ := ih hext
        refine ⟨⟨i + 1, by simp⟩, ?_, ?_, ?_⟩
        · simp only [List.map_cons, List.zip_cons_cons, List.find?]
          rw [decide_eq_false hfa]
          exact h1
        · exact h2
        · intro j hj
          rcases j with ⟨jv, hjlt⟩
          cases jv with
          | zero => exact hfa
          | succ jv' =>
              have hjv : jv' < (i : ℕ) := by
                simpa using hj
              exact h3 ⟨jv', by simpa using hjlt⟩ hjv

lemma select_first_min_spec (ls : List ℚ) (f : ℚ → ℚ) (hl : ls ≠ []) :
    ∃ i : Fin ls.length,
      select_first_min ls (ls.map f) = .ok (ls.get i) ∧
      (∀ j : Fin ls.length, f (ls.get i) ≤ f (ls.get j)) ∧
      ∀ j : Fin ls.length, (j : ℕ) < (i : ℕ) → f (ls.get i) < f (ls.get j) := by
  have hne : ls.map f ≠ [] := by
    simpa using hl
  cases hmin : list_min (ls.map f) with
  | none => exact absurd ((list_min_eq_none_iff _).mp hmin) hne
  | some m =>
      obtain ⟨hmem, hle⟩ := list_min_spec _ m hmin
      obtain ⟨x, hx, hfx⟩ := List.mem_map.mp hmem
      obtain ⟨i, hfind, hfi, hbefore⟩ := find_zip_first ls f m ⟨x, hx, hfx⟩
      refine ⟨i, ?_, ?_, ?_⟩
      · simp only [select_first_min, hmin, hfind]
      · intro j
        rw [hfi]
        exact hle _ (List.mem_map.mpr ⟨ls.get j, ls.get_mem j.1 j.2, rfl⟩)
      · intro j hj
        have hne' : f (ls.get j) ≠ m := hbefore j hj
        have hge : m ≤ f (ls.get j) :=
          hle _ (List.mem_map.mpr ⟨ls.get j, ls.get_mem j.1 j.2, rfl⟩)
        rw [hfi]
        exact lt_of_le_of_ne hge (Ne.symm hne')

/-- C4: under the call's normal-operation preconditions (a nonempty
candidate list, `n_iter ≥ 1`, a valid fold count), `choose_lambda` returns
the candidate λ whose mean cross-validation error is minimal, and on ties
the first one in the candidate ordering (the largest λ for the default
descending geometric sequence). -/
theorem choose_lambda_returns_first_min (cvf : CvOracle)
    (sampled_pots : List ℚ) (kpot : List (List ℚ)) (n_elec : ℕ)
    (lambdas : List ℚ) (n_folds n_iter : ℕ) (hl : lambdas ≠ [])
    (hi : 1 ≤ n_iter) (hf1 : 1 ≤ n_folds) (hf2 : n_folds ≤ n_elec) :
    ∃ i : Fin lambdas.length,
      choose_lambda cvf sampled_pots kpot n_elec lambdas n_folds n_iter
          = .ok (lambdas.get i) ∧
      (∀ j : Fin lambdas.length,
        mean_err cvf sampled_pots kpot n_folds n_iter (lambdas.get i)
          ≤ mean_err cvf sampled_pots kpot n_folds n_iter (lambdas.get j)) ∧
      ∀ j : Fin lambdas.length, (j : ℕ) < (i : ℕ) →
        mean_err cvf sampled_pots kpot n_folds n_iter (lambdas.get i)
          < mean_err cvf sampled_pots kpot n_folds n_iter (lambdas.get j) := by
  have hv : ¬(n_folds < 1 ∨ n_elec < n_folds) := by omega
  have herr := cv_errors_ok cvf sampled_pots kpot n_elec n_folds n_iter hv
    lambdas
  obtain ⟨i, hsel, hmin, hfirst⟩ := select_first_min_spec lambdas
    (mean_err cvf sampled_pots kpot n_folds n_iter) hl
  refine ⟨i, ?_, hmin, hfirst⟩
  rw [choose_lambda, herr]
  exact hsel

/-- Witness for `choose_lambda_returns_first_min`: candidates `[3, 1, 1, 2]`
with oracle error λ² — the minimum is attained first at index 1. -/
theorem choose_lambda_returns_first_min_witness :
    ([3, 1, 1, 2] : List ℚ) ≠ [] ∧ 1 ≤ 1 ∧ 1 ≤ 1 ∧ 1 ≤ 4 ∧
    ∃ i : Fin ([3, 1, 1, 2] : List ℚ).length,
      choose_lambda (fun _ _ l _ _ => l * l) [1, 2, 3, 4] [[1]] 4
          [3, 1, 1, 2] 1 1 = .ok (([3, 1, 1, 2] : List ℚ).get i) ∧
      (∀ j : Fin ([3, 1, 1, 2] : List ℚ).length,
        mean_err (fun _ _ l _ _ => l * l) [1, 2, 3, 4] [[1]] 1 1
            (([3, 1, 1, 2] : List ℚ).get i)
          ≤ mean_err (fun _ _ l _ _ => l * l) [1, 2, 3, 4] [[1]] 1 1
            (([3, 1, 1, 2] : List ℚ).get j)) ∧
      ∀ j : Fin ([3, 1, 1, 2] : List ℚ).length, (j : ℕ) < (i : ℕ) →
        mean_err (fun _ _ l _ _ => l * l) [1, 2, 3, 4] [[1]] 1 1
            (([3, 1, 1, 2] : List ℚ).get i)
          < mean_err (fun _ _ l _ _ => l * l) [1, 2, 3, 4] [[1]] 1 1
            (([3, 1, 1, 2] : List ℚ).get j) :=
  ⟨by simp, le_refl 1, le_refl 1, by norm_num,
    choose_lambda_returns_first_min (fun _ _ l _ _ => l * l) [1, 2, 3, 4]
      [[1]] 4 [3, 1, 1, 2] 1 1 (by simp) (le_refl 1) (le_refl 1)
      (by norm_num)⟩

/-- C7's counterexample: a call with `n_folds = 0 < 1` but an empty
candidate list never reaches `cv.cross_validation`; line 317's
`min(errors)` over the empty errors array raises `ValueError`, not
InvalidFoldCountError. -/
theorem choose_lambda_invalid_folds_counterexample :
    choose_lambda (fun _ _ _ _ _ => 0) [1, 2, 3, 4] [[1]] 4 [] 0 1
        = .error .valueError ∧
    (Except.error PyErr.valueError : Except PyErr ℚ)
        ≠ .error .invalidFoldCount :=
  ⟨rfl, by simp⟩

/-- C7 (amended): every `choose_lambda` call that offers at least one
candidate and at least one iteration, with `n_folds < 1` or
`n_folds > N_electrodes`, fails with InvalidFoldCountError (raised by the
first `cv.cross_validation` call and propagated). -/
theorem choose_lambda_invalid_folds (cvf : CvOracle) (sampled_pots : List ℚ)
    (kpot : List (List ℚ)) (n_elec : ℕ) (lambdas : List ℚ)
    (n_folds n_iter : ℕ) (hl : lambdas ≠ []) (hi : 1 ≤ n_iter)
    (hbad : n_folds < 1 ∨ n_elec < n_folds) :
    choose_lambda cvf sampled_pots kpot n_elec lambdas n_folds n_iter
        = .error .invalidFoldCount := by
  obtain ⟨l, ls, rfl⟩ := List.exists_cons_of_ne_nil hl
  cases n_iter with
  | zero => omega
  | succ k =>
      rw [choose_lambda]
      simp only [cv_errors, List.range_succ_eq_map, cv_iter_loop,
        cross_validation]
      rw [if_pos hbad]
      rfl

/-- Witness for `choose_lambda_invalid_folds`: one candidate, one
iteration, `n_folds = 0`. -/
theorem choose_lambda_invalid_folds_witness :
    ([1] : List ℚ) ≠ [] ∧ 1 ≤ 1 ∧ ((0 : ℕ) < 1 ∨ 4 < 0) ∧
    choose_lambda (fun _ _ _ _ _ => 0) [1, 2, 3, 4] [[1]] 4 [1] 0 1
        = .error .invalidFoldCount :=
  ⟨by simp, le_refl 1, Or.inl (by norm_num),
    choose_lambda_invalid_folds (fun _ _ _ _ _ => 0) [1, 2, 3, 4] [[1]] 4
      [1] 0 1 (by simp) (le_refl 1) (Or.inl (by norm_num))⟩

lemma zipWith_add_replicate_zero (out : List ℚ) :
    List.zipWith (· + ·) out (List.replicate out.length 0) = out := by
  induction out with
  | nil => rfl
  | cons x t ih => simp [List.replicate_succ, ih]

lemma estimate_loop_zero {N m : ℕ} (beta : Fin N → ℚ) (is : List (Fin N))
    (out : List ℚ) (h : out.length = m) :
    estimate_loop beta (0 : Matrix (Fin m) (Fin N) ℚ) is out = .ok out := by
  induction is with
  | nil => rfl
  | cons i is ih =>
      have hb : (List.finRange m).map
          (fun r => beta i * (0 : Matrix (Fin m) (Fin N) ℚ) r i)
          = List.replicate m 0 := by
        simp [List.map_const']
      have hba : broadcast_add out (List.replicate m 0) = .ok out := by
        rw [broadcast_add, if_pos (by simp [h]), ← h,
          zipWith_add_replicate_zero]
      simp only [estimate_loop, hb, hba]
      exact ih

/-- C2 fails on the code: with a 2×2×2 estimation grid (4 electrodes, a
zero interpolation table), `estimate_pots` returns a two-dimensional
`(nx, ny)` array, and `estimate_csd` — which allocates an `nx*ny` buffer
but reshapes it to `(nx, ny, nz)` — raises `ValueError`.  Neither returns
an array of the declared grid shape `nx × ny × nz`. -/
theorem estimate_outputs_not_grid_shaped :
    (∃ arr : NDArray,
      estimate_pots (1 : Matrix (Fin 4) (Fin 4) ℚ) 0 0
          (0 : Matrix (Fin 4) (Fin 4) ℚ) 2 2 2 = .ok arr ∧
      arr.shape = [2, 2] ∧ arr.shape ≠ [2, 2, 2]) ∧
    estimate_csd (1 : Matrix (Fin 4) (Fin 4) ℚ) 0 0
        (0 : Matrix (Fin 4) (Fin 4) ℚ) 2 2 2 = .error .valueError := by
  have hload : (np_zeros (2 * 2)).length = 4 := by simp [np_zeros]
  constructor
  · refine ⟨⟨[2, 2], np_zeros (2 * 2)⟩, ?_, rfl, by simp⟩
    simp only [estimate_pots]
    rw [estimate_loop_zero _ _ _ hload]
    show np_reshape (np_zeros (2 * 2)) [2, 2] = _
    rw [np_reshape, if_pos (by simp [np_zeros])]
  · simp only [estimate_csd]
    rw [estimate_loop_zero _ _ _ hload]
    show np_reshape (np_zeros (2 * 2)) [2, 2, 2] = _
    rw [np_reshape, if_neg (by simp [np_zeros])]

/-- C3 fails on the code: with bounds `xmin=0, xmax=1, ymin=0, ymax=2,
zmin=0, zmax=1` and spacings `gdX=1/2, gdY=1, gdZ=1/2`, line 78 builds
`lin_z = linspace(zmin, ymax, (zmax-zmin)/gdZ + 1) = [0, 1, 2]`: the grid's
z coordinates run to `ymax = 2`, escaping `[zmin, zmax] = [0, 1]`. -/
theorem lin_z_endpoint_is_ymax :
    lin_z ⟨0, 1, 0, 2, 0, 1, 1/2, 1, 1/2⟩ = [0, 1, 2] ∧
    (⟨0, 1, 0, 2, 0, 1, 1/2, 1, 1/2⟩ : Bounds).zmax = 1 ∧
    ∃ z ∈ lin_z ⟨0, 1, 0, 2, 0, 1, 1/2, 1, 1/2⟩,
      (⟨0, 1, 0, 2, 0, 1, 1/2, 1, 1/2⟩ : Bounds).zmax < z := by
  have hlin : lin_z ⟨0, 1, 0, 2, 0, 1, 1/2, 1, 1/2⟩ = [0, 1, 2] := by
    show np_linspace 0 2 ((py_int ((1 - 0) / (1 / 2) + 1)).toNat) = [0, 1, 2]
    have h3 : ((py_int ((1 - 0) / (1 / 2) + 1)).toNat) = 3 := by
      rw [py_int, if_pos (by norm_num)]
      norm_num
      rfl
    rw [h3]
    simp [np_linspace, List.range_succ]
    norm_num
  refine ⟨hlin, rfl, 2, ?_, ?_⟩
  · rw [hlin]
    simp
  · norm_num

end KCSD3D
